import Mathlib

/-!
Shallow embedding of the keyforge-network session server core
(`src/server_response.go`, the current revision of the handler module, and
`src/client.go`).  Pure data is embedded as Lean structures; the handlers
become state-passing functions `Server → … → Server × List Event × Except
String Unit`, where `Event` records every outbound packet, connection close
and log line the Go code emits, in emission order.  Registry and lobby
helpers (`FindPlayerByConnection`, `AddPlayer`, `RemovePlayer`, `AddLobby`,
lobby member mutation, …) are not part of the given sources; they are
modelled from the specification and marked `Modelled from the spec:` in
their doc comments.  Machine integers are `Nat` with an explicit modulus
where overflow matters (the client sequence counter is a Go `uint16`).
-/

namespace KFNetwork

/-- Connections (`net.Conn`) are opaque handles; we model them as natural
numbers compared by identity. -/
abbrev Conn := Nat

/-- Result of the external identity service (`RetrieveProfile`): an identity
record carrying the verified user ID. -/
structure Identity where
  ID : String
deriving DecidableEq

/-- `VersionPacket`: carries the client protocol version (the `Type` header
tag is represented by the packet's constructor in `Packet`). -/
structure VersionPacket where
  Version : Nat
deriving DecidableEq

/-- `LoginRequestPacket`: claimed name, claimed ID and the identity-service
token. -/
structure LoginRequestPacket where
  Name : String
  ID : String
  Token : String
deriving DecidableEq

/-- `ExitPacket`: no payload fields are read by the server. -/
structure ExitPacket where
deriving DecidableEq

/-- `CreateLobbyRequestPacket`: requested lobby name. -/
structure CreateLobbyRequestPacket where
  Name : String
deriving DecidableEq

/-- `PlayerListRequestPacket`: no payload fields are read by the server. -/
structure PlayerListRequestPacket where
deriving DecidableEq

/-- `GlobalChatRequestPacket`: the chat message. -/
structure GlobalChatRequestPacket where
  Message : String
deriving DecidableEq

/-- `LobbyChatRequestPacket`: its handler is a no-op and reads no field, so
the payload is left empty. -/
structure LobbyChatRequestPacket where
deriving DecidableEq

/-- `LobbyListRequestPacket`: no payload fields are read by the server. -/
structure LobbyListRequestPacket where
deriving DecidableEq

/-- `JoinLobbyRequestPacket`: target lobby by ID and by name. -/
structure JoinLobbyRequestPacket where
  ID : String
  Name : String
deriving DecidableEq

/-- `LeaveLobbyRequestPacket`: target lobby by ID and by name. -/
structure LeaveLobbyRequestPacket where
  ID : String
  Name : String
deriving DecidableEq

/-- `LobbyKickRequestPacket`: the ID of the player to kick. -/
structure LobbyKickRequestPacket where
  Target : String
deriving DecidableEq

/-- `CardPileRequestPacket`: the requested pile (a Go `uint8`). -/
structure CardPileRequestPacket where
  Pile : Nat
deriving DecidableEq

/-- A `Player`: authenticated participant bound to a connection.  The Go
per-player mutex only orders concurrent access and has no effect in this
sequential embedding, so it is not represented. -/
structure Player where
  ID : String
  Name : String
  Client : Conn
deriving DecidableEq

/-- Modelled from the spec: a `Lobby` is `\x7b ID, Name, Host, Members \x7d`
where `ID` is an opaque unique identifier, `Host` is a reference to a
player and `Members` is an ordered set of player references.  Go references
(pointers) are represented by player values; the registry copy of a lobby
is addressed by its unique `id` (see `Server.updateLobby`). -/
structure Lobby where
  id : String
  name : String
  host : Player
  players : List Player
deriving DecidableEq

/-- The server state: the player registry (`Clients`), the lobby registry
(`Lobbies`), the debug-logging flag, and a counter used to mint fresh
opaque lobby identifiers (modelled from the spec, which only requires the
identifier to be unique). -/
structure Server where
  Clients : List Player
  Lobbies : List Lobby
  Debug : Bool
  NextLobbyID : Nat
deriving DecidableEq

/-- The `PlayerListEntry` response record. -/
structure PlayerListEntry where
  ID : String
  Name : String
deriving DecidableEq

/-- The `PlayerList` response payload. -/
structure PlayerList where
  Players : List PlayerListEntry
  Count : Nat
deriving DecidableEq

/-- The `LobbyListEntry` response record. -/
structure LobbyListEntry where
  ID : String
  Name : String
deriving DecidableEq

/-- The `LobbyList` response payload. -/
structure LobbyList where
  Lobbies : List LobbyListEntry
  Count : Nat
deriving DecidableEq

/-- One log line per logging call site in `server_response.go`, carrying the
data interpolated by the corresponding `fmt.Sprintf`. -/
inductive LogEntry where
  | handleVersionPacket (packet : VersionPacket)
  | versionMismatch (client : Conn)
  | createLobbyRequestError (err : String)
  | playerCreatedLobby (playerName lobbyName lobbyID : String)
  | playerListRequestError (err : String)
  | requestedPlayerList (playerName : String)
  | globalChat (playerName message : String)
  | requestedLobbyList (playerName : String)
  | kickNotHost (playerName targetName : String)
deriving DecidableEq

/-- Observable effects of a handler, in emission order: outbound packets
(one constructor per `Send*Response` helper, carrying exactly the arguments
the Go call site passes), connection closes and log lines. -/
inductive Event where
  | errorPacket (client : Conn) (message : String)
  | closeConnection (client : Conn)
  | log (entry : LogEntry)
  | createLobbyResponse (player : Player) (lobbyID : String)
  | playerListResponse (player : Player) (list : PlayerList)
  | globalChatResponse (player : Player) (senderName message : String)
  | lobbyListResponse (player : Player) (list : LobbyList)
  | joinLobbyResponse (player : Player) (lobbyName lobbyID : String) (success : Bool)
  | leaveLobbyResponse (player : Player) (lobbyName lobbyID : String) (success : Bool)
  | lobbyKickResponse (player : Player) (targetID : String) (success : Bool)
deriving DecidableEq

/-- Modelled from the spec: the player registry maps connections to players;
`FindPlayerByConnection` resolves a connection to its player and fails with
a lookup error when the connection is not registered. -/
def Server.FindPlayerByConnection (s : Server) (client : Conn) : Except String Player :=
  match s.Clients.find? (fun p => decide (p.Client = client)) with
  | some p => .ok p
  | none => .error "player not found"

/-- Modelled from the spec: the player registry is indexable by player ID. -/
def Server.FindPlayerByID (s : Server) (id : String) : Except String Player :=
  match s.Clients.find? (fun p => decide (p.ID = id)) with
  | some p => .ok p
  | none => .error "player not found"

/-- Modelled from the spec: lobby lookup by its opaque unique identifier. -/
def Server.FindLobbyByID (s : Server) (id : String) : Except String Lobby :=
  match s.Lobbies.find? (fun l => decide (l.id = id)) with
  | some l => .ok l
  | none => .error "lobby not found"

/-- Modelled from the spec: lobby lookup by name. -/
def Server.FindLobbyByName (s : Server) (name : String) : Except String Lobby :=
  match s.Lobbies.find? (fun l => decide (l.name = name)) with
  | some l => .ok l
  | none => .error "lobby not found"

/-- Modelled from the spec: find the lobby the given player currently
belongs to (its member set contains the player). -/
def Server.FindLobbyByPlayer (s : Server) (p : Player) : Except String Lobby :=
  match s.Lobbies.find? (fun l => decide (p ∈ l.players)) with
  | some l => .ok l
  | none => .error "lobby not found"

/-- Modelled from the spec: whether the player is currently a member of any
lobby. -/
def Server.PlayerHasLobby (s : Server) (p : Player) : Bool :=
  s.Lobbies.any (fun l => decide (p ∈ l.players))

/-- Modelled from the spec: insert a player into the player registry. -/
def Server.AddPlayer (s : Server) (p : Player) : Server :=
  { s with Clients := s.Clients ++ [p] }

/-- Modelled from the spec: a lobby's `Members` is an ordered set, so adding
a player appends it unless it is already a member. -/
def Lobby.AddPlayer (l : Lobby) (p : Player) : Lobby :=
  if p ∈ l.players then l else { l with players := l.players ++ [p] }

/-- Modelled from the spec: remove a player from the lobby's member set.
The spec leaves host-left semantics an open question and the source has no
host-reassignment logic, so only the member set changes. -/
def Lobby.RemovePlayer (l : Lobby) (p : Player) : Lobby :=
  { l with players := l.players.filter (fun q => decide (q ≠ p)) }

/-- Modelled from the spec: removing a player from the registry must also
remove it from every lobby it belongs to (cross-cutting invariant the
implementation maintains explicitly). -/
def Server.RemovePlayer (s : Server) (p : Player) : Server :=
  { s with
    Clients := s.Clients.filter (fun q => decide (q ≠ p)),
    Lobbies := s.Lobbies.map (fun l => l.RemovePlayer p) }

/-- Modelled from the spec: create a new lobby with a fresh opaque ID, the
given name, the creating player as host and sole initial member, and insert
it into the lobby registry. -/
def Server.AddLobby (s : Server) (p : Player) (name : String) : Server × Lobby :=
  let lobby : Lobby := { id := toString s.NextLobbyID, name := name, host := p, players := [p] }
  ({ s with Lobbies := s.Lobbies ++ [lobby], NextLobbyID := s.NextLobbyID + 1 }, lobby)

/-- Modelled from the spec: a Go handler mutates a lobby through a pointer
into the registry; here the registry copy with the same unique `id` is
replaced by the updated lobby. -/
def Server.updateLobby (s : Server) (l : Lobby) : Server :=
  { s with Lobbies := s.Lobbies.map (fun x => if x.id = l.id then l else x) }

/-- `HandleVersionRequest` (`server_response.go`): always logs the packet;
on a version mismatch, additionally logs the mismatch when debug logging is
enabled, sends the "Protocol version mismatch." error packet and closes the
connection.  `ProtocolVersion` is a package constant outside the given
sources, so it is passed as the `pv` parameter. -/
def Server.HandleVersionRequest (pv : Nat) (s : Server) (client : Conn)
    (packet : VersionPacket) : Server × List Event :=
  let ev0 : List Event := [.log (.handleVersionPacket packet)]
  if packet.Version ≠ pv then
    let ev1 := if s.Debug then ev0 ++ [.log (.versionMismatch client)] else ev0
    (s, ev1 ++ [.errorPacket client "Protocol version mismatch.", .closeConnection client])
  else
    (s, ev0)

/-- `HandleLoginRequest` (`server_response.go`): `RetrieveProfile` is the
external identity service, passed as the `profile` parameter.  A profile
failure is returned as-is; an ID mismatch sends "Login failed.", closes the
connection and returns an authentication error; otherwise a new player with
the packet's name and ID, bound to the connection, is registered. -/
def Server.HandleLoginRequest (profile : String → Except String Identity)
    (s : Server) (client : Conn) (packet : LoginRequestPacket) :
    Server × List Event × Except String Unit :=
  match profile packet.Token with
  | .error e => (s, [], .error e)
  | .ok vaultUser =>
    if vaultUser.ID ≠ packet.ID then
      (s, [.errorPacket client "Login failed.", .closeConnection client],
       .error "incorrect user ID supplied in packet")
    else
      let player : Player := { ID := packet.ID, Name := packet.Name, Client := client }
      (s.AddPlayer player, [], .ok ())

/-- `HandleExitRequest` (`server_response.go`): resolve the connection to a
player, close its connection and remove it from the registry. -/
def Server.HandleExitRequest (s : Server) (client : Conn) (packet : ExitPacket) :
    Server × List Event × Except String Unit :=
  match s.FindPlayerByConnection client with
  | .error e => (s, [], .error e)
  | .ok player => (s.RemovePlayer player, [.closeConnection player.Client], .ok ())

/-- `HandleCreateLobbyRequest` (`server_response.go`): resolve the requester
(logging the lookup error only in debug mode), create the lobby with the
requester as host, log the creation and send the create-lobby response. -/
def Server.HandleCreateLobbyRequest (s : Server) (client : Conn)
    (packet : CreateLobbyRequestPacket) : Server × List Event × Except String Unit :=
  match s.FindPlayerByConnection client with
  | .error e =>
    (s, if s.Debug then [.log (.createLobbyRequestError e)] else [], .error e)
  | .ok player =>
    let r := s.AddLobby player packet.Name
    (r.1, [.log (.playerCreatedLobby player.Name r.2.name r.2.id),
           .createLobbyResponse player r.2.id], .ok ())

/-- `HandlePlayerListRequest` (`server_response.go`): snapshot the player
registry in iteration order, send it to the requester, then log the
request. -/
def Server.HandlePlayerListRequest (s : Server) (client : Conn)
    (packet : PlayerListRequestPacket) : Server × List Event × Except String Unit :=
  match s.FindPlayerByConnection client with
  | .error e =>
    (s, if s.Debug then [.log (.playerListRequestError e)] else [], .error e)
  | .ok player =>
    let entries := s.Clients.map (fun p => PlayerListEntry.mk p.ID p.Name)
    (s, [.playerListResponse player (PlayerList.mk entries entries.length),
         .log (.requestedPlayerList player.Name)], .ok ())

/-- `HandleLobbyChatRequest` (`server_response.go`): an accepted no-op. -/
def Server.HandleLobbyChatRequest (s : Server) (client : Conn)
    (packet : LobbyChatRequestPacket) : Server × List Event × Except String Unit :=
  (s, [], .ok ())

/-- `HandleGlobalChatRequest` (`server_response.go`): broadcast the chat
response, carrying the sender's name and the message, to every registered
player in registry order, then log the broadcast. -/
def Server.HandleGlobalChatRequest (s : Server) (client : Conn)
    (packet : GlobalChatRequestPacket) : Server × List Event × Except String Unit :=
  match s.FindPlayerByConnection client with
  | .error e => (s, [], .error e)
  | .ok player =>
    (s, s.Clients.map (fun p => Event.globalChatResponse p player.Name packet.Message)
        ++ [.log (.globalChat player.Name packet.Message)], .ok ())

/-- `HandleLobbyListRequest` (`server_response.go`): snapshot the lobby
registry in iteration order, send it to the requester, then log the
request. -/
def Server.HandleLobbyListRequest (s : Server) (client : Conn)
    (packet : LobbyListRequestPacket) : Server × List Event × Except String Unit :=
  match s.FindPlayerByConnection client with
  | .error e => (s, [], .error e)
  | .ok player =>
    let entries := s.Lobbies.map (fun l => LobbyListEntry.mk l.id l.name)
    (s, [.lobbyListResponse player (LobbyList.mk entries entries.length),
         .log (.requestedLobbyList player.Name)], .ok ())

/-- `HandleJoinLobbyRequest` (`server_response.go`): resolve the requester,
look the lobby up by ID and, when that fails, by name; on either hit add
the requester to the member set and send the join response to every current
member of the (updated) lobby; otherwise fail with "no such lobby found". -/
def Server.HandleJoinLobbyRequest (s : Server) (client : Conn)
    (packet : JoinLobbyRequestPacket) : Server × List Event × Except String Unit :=
  match s.FindPlayerByConnection client with
  | .error e => (s, [], .error e)
  | .ok player =>
    match s.FindLobbyByID packet.ID with
    | .ok lobby =>
      let lobby2 := lobby.AddPlayer player
      (s.updateLobby lobby2,
       lobby2.players.map (fun p => Event.joinLobbyResponse p lobby2.name lobby2.id true),
       .ok ())
    | .error _ =>
      match s.FindLobbyByName packet.Name with
      | .ok lobby =>
        let lobby2 := lobby.AddPlayer player
        (s.updateLobby lobby2,
         lobby2.players.map (fun p => Event.joinLobbyResponse p lobby2.name lobby2.id true),
         .ok ())
      | .error _ => (s, [], .error "no such lobby found")

/-- `HandleLeaveLobbyRequest` (`server_response.go`): resolve the requester
and fail fast when it is in no lobby; then look the lobby up by ID and, when
that fails, by name; on either hit remove the requester from the member set
and send the leave response to every remaining member; otherwise fail with
"no such lobby found". -/
def Server.HandleLeaveLobbyRequest (s : Server) (client : Conn)
    (packet : LeaveLobbyRequestPacket) : Server × List Event × Except String Unit :=
  match s.FindPlayerByConnection client with
  | .error e => (s, [], .error e)
  | .ok player =>
    if ¬ s.PlayerHasLobby player then
      (s, [], .error "player is not in a lobby")
    else
      match s.FindLobbyByID packet.ID with
      | .ok lobby =>
        let lobby2 := lobby.RemovePlayer player
        (s.updateLobby lobby2,
         lobby2.players.map (fun p => Event.leaveLobbyResponse p lobby2.name lobby2.id true),
         .ok ())
      | .error _ =>
        match s.FindLobbyByName packet.Name with
        | .ok lobby =>
          let lobby2 := lobby.RemovePlayer player
          (s.updateLobby lobby2,
           lobby2.players.map (fun p => Event.leaveLobbyResponse p lobby2.name lobby2.id true),
           .ok ())
        | .error _ => (s, [], .error "no such lobby found")

/-- `HandleLobbyKickRequest` (`server_response.go`): resolve the requester,
the target player by ID and the requester's lobby; a non-host requester is
logged and rejected with an authorization error; a host requester removes
the target from the member set and both requester and target receive a
kick response.  Go compares `lobby.Host() != player` by pointer identity,
represented here by player-value equality. -/
def Server.HandleLobbyKickRequest (s : Server) (client : Conn)
    (packet : LobbyKickRequestPacket) : Server × List Event × Except String Unit :=
  match s.FindPlayerByConnection client with
  | .error e => (s, [], .error e)
  | .ok player =>
    match s.FindPlayerByID packet.Target with
    | .error e => (s, [], .error e)
    | .ok targetPlayer =>
      match s.FindLobbyByPlayer player with
      | .error e => (s, [], .error e)
      | .ok lobby =>
        if lobby.host ≠ player then
          (s, [.log (.kickNotHost player.Name targetPlayer.Name)],
           .error "insufficient privileges; must be lobby host to kick users")
        else
          (s.updateLobby (lobby.RemovePlayer targetPlayer),
           [.lobbyKickResponse player targetPlayer.ID true,
            .lobbyKickResponse targetPlayer targetPlayer.ID true], .ok ())

/-- The decoded inbound packet union dispatched by `HandlePacket`.  Each Go
packet's `Type` header tag is represented by the constructor; `otherTag`
stands for every remaining tag value (response tags, unknown tags), whose
payload the dispatcher never inspects. -/
inductive Packet where
  | version (p : VersionPacket)
  | loginRequest (p : LoginRequestPacket)
  | exitRequest (p : ExitPacket)
  | createLobbyRequest (p : CreateLobbyRequestPacket)
  | playerListRequest (p : PlayerListRequestPacket)
  | globalChatRequest (p : GlobalChatRequestPacket)
  | lobbyChatRequest (p : LobbyChatRequestPacket)
  | lobbyListRequest (p : LobbyListRequestPacket)
  | joinLobbyRequest (p : JoinLobbyRequestPacket)
  | leaveLobbyRequest (p : LeaveLobbyRequestPacket)
  | lobbyKickRequest (p : LobbyKickRequestPacket)
  | cardPileRequest (p : CardPileRequestPacket)
  | otherTag (tag : Nat)
deriving DecidableEq

/-- `HandlePacket` (`server_response.go`): the dispatcher.  Its `switch` has
exactly eight cases — version, login, global chat, player list, create
lobby, lobby list, join lobby and leave lobby requests — and no default
arm, so every other tag (including exit, lobby chat, lobby kick and card
pile requests) falls through with no handler invoked, no error and no
response.  Handler error returns are discarded by the Go caller, so the
dispatcher's result is only the new server state and the emitted events. -/
def Server.HandlePacket (pv : Nat) (profile : String → Except String Identity)
    (s : Server) (client : Conn) (packet : Packet) : Server × List Event :=
  match packet with
  | .version p => s.HandleVersionRequest pv client p
  | .loginRequest p =>
    let r := s.HandleLoginRequest profile client p
    (r.1, r.2.1)
  | .globalChatRequest p =>
    let r := s.HandleGlobalChatRequest client p
    (r.1, r.2.1)
  | .playerListRequest p =>
    let r := s.HandlePlayerListRequest client p
    (r.1, r.2.1)
  | .createLobbyRequest p =>
    let r := s.HandleCreateLobbyRequest client p
    (r.1, r.2.1)
  | .lobbyListRequest p =>
    let r := s.HandleLobbyListRequest client p
    (r.1, r.2.1)
  | .joinLobbyRequest p =>
    let r := s.HandleJoinLobbyRequest client p
    (r.1, r.2.1)
  | .leaveLobbyRequest p =>
    let r := s.HandleLeaveLobbyRequest client p
    (r.1, r.2.1)
  | _ => (s, [])

/-- The outbound packets built by the client's `Send*` methods
(`client.go`), carrying exactly the fields each method sets; the `Type`
field is represented by the constructor. -/
inductive OutPacket where
  | versionRequest (version : Nat)
  | exitRequest
  | loginRequest (name id token : String)
  | createLobbyRequest (name : String)
  | cardPileRequest (pile : Nat)
  | playerListRequest
  | globalChatRequest (message : String)
  | lobbyListRequest
  | joinLobbyRequest (name : String)
deriving DecidableEq

/-- The client (`client.go`): a connection handle and the per-connection
sequence counter.  `Sequence` is a Go `uint16`, so `c.Sequence++` is
addition modulo 2^16. -/
structure Client where
  Connection : Conn
  Sequence : Nat
deriving DecidableEq

/-- `Client.SendVersionRequest` (`client.go`): writes a version request
carrying `ProtocolVersion` (passed as `pv`; the constant is outside the
given sources) and increments the sequence counter. -/
def Client.SendVersionRequest (pv : Nat) (c : Client) : Client × OutPacket :=
  ({ c with Sequence := (c.Sequence + 1) % 65536 }, .versionRequest pv)

/-- `Client.SendExitRequest` (`client.go`). -/
def Client.SendExitRequest (c : Client) : Client × OutPacket :=
  ({ c with Sequence := (c.Sequence + 1) % 65536 }, .exitRequest)

/-- `Client.SendLoginRequest` (`client.go`). -/
def Client.SendLoginRequest (c : Client) (name id token : String) : Client × OutPacket :=
  ({ c with Sequence := (c.Sequence + 1) % 65536 }, .loginRequest name id token)

/-- `Client.SendCreateLobbyRequest` (`client.go`). -/
def Client.SendCreateLobbyRequest (c : Client) (name : String) : Client × OutPacket :=
  ({ c with Sequence := (c.Sequence + 1) % 65536 }, .createLobbyRequest name)

/-- `Client.SendGetCardPile` (`client.go`). -/
def Client.SendGetCardPile (c : Client) (pile : Nat) : Client × OutPacket :=
  ({ c with Sequence := (c.Sequence + 1) % 65536 }, .cardPileRequest pile)

/-- `Client.SendPlayerListRequest` (`client.go`). -/
def Client.SendPlayerListRequest (c : Client) : Client × OutPacket :=
  ({ c with Sequence := (c.Sequence + 1) % 65536 }, .playerListRequest)

/-- `Client.SendGlobalChatRequest` (`client.go`). -/
def Client.SendGlobalChatRequest (c : Client) (message : String) : Client × OutPacket :=
  ({ c with Sequence := (c.Sequence + 1) % 65536 }, .globalChatRequest message)

/-- `Client.SendLobbyListRequest` (`client.go`). -/
def Client.SendLobbyListRequest (c : Client) : Client × OutPacket :=
  ({ c with Sequence := (c.Sequence + 1) % 65536 }, .lobbyListRequest)

/-- `Client.SendJoinLobbyRequest` (`client.go`): the query string is sent as
the lobby name. -/
def Client.SendJoinLobbyRequest (c : Client) (query : String) : Client × OutPacket :=
  ({ c with Sequence := (c.Sequence + 1) % 65536 }, .joinLobbyRequest query)

/-- Concrete fixture: a registered player hosting the fixture lobby. -/
def alice : Player := { ID := "alice", Name := "Alice", Client := 0 }

/-- Concrete fixture: a registered player, member of the fixture lobby. -/
def bob : Player := { ID := "bob", Name := "Bob", Client := 1 }

/-- Concrete fixture: a registered player in no lobby. -/
def carol : Player := { ID := "carol", Name := "Carol", Client := 2 }

/-- Concrete fixture: a lobby hosted by `alice` with members `alice` and
`bob`. -/
def fooLobby : Lobby := { id := "L1", name := "Foo", host := alice, players := [alice, bob] }

/-- Concrete fixture: a server with three registered players and one lobby,
debug logging on. -/
def sEx : Server := { Clients := [alice, bob, carol], Lobbies := [fooLobby], Debug := true, NextLobbyID := 2 }

/-- Concrete fixture: an identity service that accepts every token as the
identity `alice`. -/
def profEx : String → Except String Identity := fun _ => .ok { ID := "alice" }

/-- Concrete fixture: a client mid-session. -/
def cEx : Client := { Connection := 0, Sequence := 41 }

/-- Adding a player never changes the lobby name. -/
theorem Lobby.AddPlayer_name (l : Lobby) (p : Player) : (l.AddPlayer p).name = l.name := by
  unfold Lobby.AddPlayer
  split <;> rfl

/-- Adding a player never changes the lobby ID. -/
theorem Lobby.AddPlayer_id (l : Lobby) (p : Player) : (l.AddPlayer p).id = l.id := by
  unfold Lobby.AddPlayer
  split <;> rfl

/-- The added player is a member of the updated member set. -/
theorem Lobby.AddPlayer_mem (l : Lobby) (p : Player) : p ∈ (l.AddPlayer p).players := by
  unfold Lobby.AddPlayer
  split
  · assumption
  · simp

/-- Claim C1: when the identity service resolves the token to an identity
whose ID differs from the packet's claimed ID, `HandleLoginRequest` sends
exactly one error packet "Login failed.", closes the connection, returns an
authentication error, and leaves the server state — in particular the
player registry — unchanged. -/
theorem HandleLoginRequest_id_mismatch (profile : String → Except String Identity)
    (s : Server) (client : Conn) (packet : LoginRequestPacket) (vaultUser : Identity)
    (hprof : profile packet.Token = .ok vaultUser) (hne : vaultUser.ID ≠ packet.ID) :
    s.HandleLoginRequest profile client packet =
      (s, [.errorPacket client "Login failed.", .closeConnection client],
       .error "incorrect user ID supplied in packet") := by
  simp [Server.HandleLoginRequest, hprof, hne]

/-- Witness for C1 at a concrete server, connection and packet. -/
theorem HandleLoginRequest_id_mismatch_witness :
    sEx.HandleLoginRequest profEx 7 { Name := "Bob", ID := "bob", Token := "tok" } =
      (sEx, [.errorPacket 7 "Login failed.", .closeConnection 7],
       .error "incorrect user ID supplied in packet") :=
  HandleLoginRequest_id_mismatch profEx sEx 7 _ { ID := "alice" } rfl (by decide)

/-- Claim C2: on a version mismatch `HandleVersionRequest` emits the
mismatch log entry exactly when debug logging is enabled, sends exactly one
error packet "Protocol version mismatch." and closes the connection; on a
matching version it sends no packet and closes nothing (only the
unconditional packet-trace log line is emitted). -/
theorem HandleVersionRequest_spec (pv : Nat) (s : Server) (client : Conn)
    (packet : VersionPacket) :
    (packet.Version ≠ pv →
       s.HandleVersionRequest pv client packet =
         (s, Event.log (.handleVersionPacket packet) ::
             ((if s.Debug then [Event.log (.versionMismatch client)] else []) ++
              [.errorPacket client "Protocol version mismatch.", .closeConnection client])))
  ∧ (packet.Version = pv →
       s.HandleVersionRequest pv client packet = (s, [.log (.handleVersionPacket packet)])) := by
  constructor
  · intro h
    simp only [Server.HandleVersionRequest, if_pos h, ne_eq]
    cases hd : s.Debug <;> simp [hd, h]
  · intro h
    simp [Server.HandleVersionRequest, h]

/-- Witness for C2: both branches at concrete inputs (debug logging on, so
the mismatch log entry appears). -/
theorem HandleVersionRequest_spec_witness :
    (sEx.HandleVersionRequest 1 5 { Version := 2 } =
      (sEx, Event.log (.handleVersionPacket { Version := 2 }) ::
            ((if sEx.Debug then [Event.log (.versionMismatch 5)] else []) ++
             [.errorPacket 5 "Protocol version mismatch.", .closeConnection 5])))
  ∧ (sEx.HandleVersionRequest 1 5 { Version := 1 } =
      (sEx, [.log (.handleVersionPacket { Version := 1 })])) :=
  ⟨(HandleVersionRequest_spec 1 sEx 5 { Version := 2 }).1 (by decide),
   (HandleVersionRequest_spec 1 sEx 5 { Version := 1 }).2 rfl⟩

/-- Claim C3: once the requester, the target and the requester's lobby all
resolve, a non-host requester only gets the attempt logged and an
authorization error back with the server — hence every member set —
unchanged; a host requester removes the target from the member set and
both requester and target receive `LobbyKickResponse(targetID, true)`. -/
theorem HandleLobbyKickRequest_host_auth (s : Server) (client : Conn)
    (packet : LobbyKickRequestPacket) (player targetPlayer : Player) (lobby : Lobby)
    (hp : s.FindPlayerByConnection client = .ok player)
    (ht : s.FindPlayerByID packet.Target = .ok targetPlayer)
    (hl : s.FindLobbyByPlayer player = .ok lobby) :
    (lobby.host ≠ player →
       s.HandleLobbyKickRequest client packet =
         (s, [.log (.kickNotHost player.Name targetPlayer.Name)],
          .error "insufficient privileges; must be lobby host to kick users"))
  ∧ (lobby.host = player →
       s.HandleLobbyKickRequest client packet =
         (s.updateLobby (lobby.RemovePlayer targetPlayer),
          [.lobbyKickResponse player targetPlayer.ID true,
           .lobbyKickResponse targetPlayer targetPlayer.ID true], .ok ())
       ∧ targetPlayer ∉ (lobby.RemovePlayer targetPlayer).players) := by
  constructor
  · intro h
    simp [Server.HandleLobbyKickRequest, hp, ht, hl, h]
  · intro h
    refine ⟨by simp [Server.HandleLobbyKickRequest, hp, ht, hl, h], ?_⟩
    simp [Lobby.RemovePlayer, List.mem_filter]

/-- Witness for C3: `bob` (not the host) attempts to kick `alice` in the
fixture server and is rejected with no state change. -/
theorem HandleLobbyKickRequest_host_auth_witness :
    sEx.HandleLobbyKickRequest 1 { Target := "alice" } =
      (sEx, [.log (.kickNotHost bob.Name alice.Name)],
       .error "insufficient privileges; must be lobby host to kick users") :=
  (HandleLobbyKickRequest_host_auth sEx 1 { Target := "alice" } bob alice fooLobby
    rfl rfl rfl).1 (by decide)

/-- Claim C4: `HandleJoinLobbyRequest` resolves the target lobby by ID
first, falling back to name lookup only when the ID lookup fails; in either
success case the requester joins the member set and the join response
`(lobbyName, lobbyID, true)` goes to every current member of the updated
lobby, the joiner included. -/
theorem HandleJoinLobbyRequest_resolution (s : Server) (client : Conn)
    (packet : JoinLobbyRequestPacket) (player : Player)
    (hp : s.FindPlayerByConnection client = .ok player) :
    (∀ lobby, s.FindLobbyByID packet.ID = .ok lobby →
       player ∈ (lobby.AddPlayer player).players ∧
       s.HandleJoinLobbyRequest client packet =
         (s.updateLobby (lobby.AddPlayer player),
          (lobby.AddPlayer player).players.map
            (fun p => Event.joinLobbyResponse p lobby.name lobby.id true),
          .ok ()) ∧
       Event.joinLobbyResponse player lobby.name lobby.id true ∈
         (s.HandleJoinLobbyRequest client packet).2.1)
  ∧ (∀ e lobby, s.FindLobbyByID packet.ID = .error e →
       s.FindLobbyByName packet.Name = .ok lobby →
       player ∈ (lobby.AddPlayer player).players ∧
       s.HandleJoinLobbyRequest client packet =
         (s.updateLobby (lobby.AddPlayer player),
          (lobby.AddPlayer player).players.map
            (fun p => Event.joinLobbyResponse p lobby.name lobby.id true),
          .ok ()) ∧
       Event.joinLobbyResponse player lobby.name lobby.id true ∈
         (s.HandleJoinLobbyRequest client packet).2.1) := by
  constructor
  · intro lobby hid
    have hm := Lobby.AddPlayer_mem lobby player
    have heq : s.HandleJoinLobbyRequest client packet =
        (s.updateLobby (lobby.AddPlayer player),
         (lobby.AddPlayer player).players.map
           (fun p => Event.joinLobbyResponse p lobby.name lobby.id true),
         .ok ()) := by
      simp [Server.HandleJoinLobbyRequest, hp, hid, Lobby.AddPlayer_name, Lobby.AddPlayer_id]
    refine ⟨hm, heq, ?_⟩
    rw [heq]
    exact List.mem_map_of_mem _ hm
  · intro e lobby hid hname
    have hm := Lobby.AddPlayer_mem lobby player
    have heq : s.HandleJoinLobbyRequest client packet =
        (s.updateLobby (lobby.AddPlayer player),
         (lobby.AddPlayer player).players.map
           (fun p => Event.joinLobbyResponse p lobby.name lobby.id true),
         .ok ()) := by
      simp [Server.HandleJoinLobbyRequest, hp, hid, hname, Lobby.AddPlayer_name,
        Lobby.AddPlayer_id]
    refine ⟨hm, heq, ?_⟩
    rw [heq]
    exact List.mem_map_of_mem _ hm

/-- Witness for C4: `carol` joins the fixture lobby once by ID (with an
unset name) and once by name (with an unknown ID); both succeed
identically and `carol` is among the response recipients. -/
theorem HandleJoinLobbyRequest_resolution_witness :
    (carol ∈ (fooLobby.AddPlayer carol).players ∧
     sEx.HandleJoinLobbyRequest 2 { ID := "L1", Name := "" } =
       (sEx.updateLobby (fooLobby.AddPlayer carol),
        (fooLobby.AddPlayer carol).players.map
          (fun p => Event.joinLobbyResponse p fooLobby.name fooLobby.id true),
        .ok ()) ∧
     Event.joinLobbyResponse carol fooLobby.name fooLobby.id true ∈
       (sEx.HandleJoinLobbyRequest 2 { ID := "L1", Name := "" }).2.1)
  ∧ (carol ∈ (fooLobby.AddPlayer carol).players ∧
     sEx.HandleJoinLobbyRequest 2 { ID := "nope", Name := "Foo" } =
       (sEx.updateLobby (fooLobby.AddPlayer carol),
        (fooLobby.AddPlayer carol).players.map
          (fun p => Event.joinLobbyResponse p fooLobby.name fooLobby.id true),
        .ok ()) ∧
     Event.joinLobbyResponse carol fooLobby.name fooLobby.id true ∈
       (sEx.HandleJoinLobbyRequest 2 { ID := "nope", Name := "Foo" }).2.1) :=
  ⟨(HandleJoinLobbyRequest_resolution sEx 2 { ID := "L1", Name := "" } carol rfl).1
     fooLobby rfl,
   (HandleJoinLobbyRequest_resolution sEx 2 { ID := "nope", Name := "Foo" } carol rfl).2
     "lobby not found" fooLobby rfl rfl⟩

/-- Claim C5: when the requester is logged in but neither the ID lookup nor
the name lookup finds a lobby, `HandleJoinLobbyRequest` fails with the
no-lobby-found error (message "no such lobby found" in the source) and has
no side effects: the server is unchanged and no packet is sent. -/
theorem HandleJoinLobbyRequest_no_lobby (s : Server) (client : Conn)
    (packet : JoinLobbyRequestPacket) (player : Player) (e1 e2 : String)
    (hp : s.FindPlayerByConnection client = .ok player)
    (h1 : s.FindLobbyByID packet.ID = .error e1)
    (h2 : s.FindLobbyByName packet.Name = .error e2) :
    s.HandleJoinLobbyRequest client packet = (s, [], .error "no such lobby found") := by
  simp [Server.HandleJoinLobbyRequest, hp, h1, h2]

/-- Witness for C5 at a concrete server and an unknown lobby ID and name. -/
theorem HandleJoinLobbyRequest_no_lobby_witness :
    sEx.HandleJoinLobbyRequest 2 { ID := "x", Name := "y" } =
      (sEx, [], .error "no such lobby found") :=
  HandleJoinLobbyRequest_no_lobby sEx 2 { ID := "x", Name := "y" } carol
    "lobby not found" "lobby not found" rfl rfl rfl

/-- Claim C6: a logged-in requester that is a member of no lobby makes
`HandleLeaveLobbyRequest` fail with the state error "player is not in a
lobby" before any lobby lookup or mutation; the server — hence every
lobby's member set — is unchanged and nothing is sent. -/
theorem HandleLeaveLobbyRequest_non_member (s : Server) (client : Conn)
    (packet : LeaveLobbyRequestPacket) (player : Player)
    (hp : s.FindPlayerByConnection client = .ok player)
    (hm : s.PlayerHasLobby player = false) :
    s.HandleLeaveLobbyRequest client packet = (s, [], .error "player is not in a lobby") := by
  simp [Server.HandleLeaveLobbyRequest, hp, hm]

/-- Witness for C6: `carol`, member of no lobby, asks to leave the fixture
lobby. -/
theorem HandleLeaveLobbyRequest_non_member_witness :
    sEx.HandleLeaveLobbyRequest 2 { ID := "L1", Name := "Foo" } =
      (sEx, [], .error "player is not in a lobby") :=
  HandleLeaveLobbyRequest_non_member sEx 2 { ID := "L1", Name := "Foo" } carol rfl rfl

/-- Claim C7 (amended): the dispatcher invokes exactly the handler matching
the type tag for the eight cases of its `switch` — version, login, global
chat, player list, create lobby, lobby list, join lobby and leave lobby
requests — and for every other tag (exit, lobby chat, lobby kick and card
pile requests among them) it invokes no handler, produces no error and
sends no response. -/
theorem HandlePacket_dispatch_table (pv : Nat) (profile : String → Except String Identity)
    (s : Server) (client : Conn) (p1 : VersionPacket) (p2 : LoginRequestPacket)
    (p3 : GlobalChatRequestPacket) (p4 : PlayerListRequestPacket)
    (p5 : CreateLobbyRequestPacket) (p6 : LobbyListRequestPacket)
    (p7 : JoinLobbyRequestPacket) (p8 : LeaveLobbyRequestPacket)
    (p9 : ExitPacket) (p10 : LobbyChatRequestPacket) (p11 : LobbyKickRequestPacket)
    (p12 : CardPileRequestPacket) (tag : Nat) :
    s.HandlePacket pv profile client (.version p1) = s.HandleVersionRequest pv client p1 ∧
    s.HandlePacket pv profile client (.loginRequest p2) =
      ((s.HandleLoginRequest profile client p2).1,
       (s.HandleLoginRequest profile client p2).2.1) ∧
    s.HandlePacket pv profile client (.globalChatRequest p3) =
      ((s.HandleGlobalChatRequest client p3).1, (s.HandleGlobalChatRequest client p3).2.1) ∧
    s.HandlePacket pv profile client (.playerListRequest p4) =
      ((s.HandlePlayerListRequest client p4).1, (s.HandlePlayerListRequest client p4).2.1) ∧
    s.HandlePacket pv profile client (.createLobbyRequest p5) =
      ((s.HandleCreateLobbyRequest client p5).1, (s.HandleCreateLobbyRequest client p5).2.1) ∧
    s.HandlePacket pv profile client (.lobbyListRequest p6) =
      ((s.HandleLobbyListRequest client p6).1, (s.HandleLobbyListRequest client p6).2.1) ∧
    s.HandlePacket pv profile client (.joinLobbyRequest p7) =
      ((s.HandleJoinLobbyRequest client p7).1, (s.HandleJoinLobbyRequest client p7).2.1) ∧
    s.HandlePacket pv profile client (.leaveLobbyRequest p8) =
      ((s.HandleLeaveLobbyRequest client p8).1, (s.HandleLeaveLobbyRequest client p8).2.1) ∧
    s.HandlePacket pv profile client (.exitRequest p9) = (s, []) ∧
    s.HandlePacket pv profile client (.lobbyChatRequest p10) = (s, []) ∧
    s.HandlePacket pv profile client (.lobbyKickRequest p11) = (s, []) ∧
    s.HandlePacket pv profile client (.cardPileRequest p12) = (s, []) ∧
    s.HandlePacket pv profile client (.otherTag tag) = (s, []) :=
  ⟨rfl, rfl, rfl, rfl, rfl, rfl, rfl, rfl, rfl, rfl, rfl, rfl, rfl⟩

/-- Counterexample to C7 as stated: dispatching an exit request leaves the
fixture server untouched and emits nothing, while the exit handler invoked
directly at the same input both changes the registry and closes the
connection — so the dispatcher does not invoke the handler matching the
exit tag (its `switch` has no such case). -/
theorem HandlePacket_exit_not_dispatched :
    sEx.HandlePacket 1 profEx 0 (.exitRequest {}) = (sEx, []) ∧
    (sEx.HandleExitRequest 0 {}).1 ≠ sEx ∧
    (sEx.HandleExitRequest 0 {}).2.1 = [.closeConnection 0] :=
  ⟨rfl, by decide, rfl⟩

/-- Claim C8: after a successful `HandleExitRequest` the resolved player is
gone from the player registry and from every lobby's member set. -/
theorem HandleExitRequest_cleanup (s : Server) (client : Conn) (packet : ExitPacket)
    (player : Player) (hp : s.FindPlayerByConnection client = .ok player) :
    (s.HandleExitRequest client packet).2.2 = .ok () ∧
    player ∉ (s.HandleExitRequest client packet).1.Clients ∧
    ∀ l ∈ (s.HandleExitRequest client packet).1.Lobbies, player ∉ l.players := by
  simp [Server.HandleExitRequest, hp, Server.RemovePlayer, Lobby.RemovePlayer,
    List.mem_filter]

/-- Witness for C8: `bob` exits the fixture server and is gone from the
registry and from the fixture lobby. -/
theorem HandleExitRequest_cleanup_witness :
    (sEx.HandleExitRequest 1 {}).2.2 = .ok () ∧
    bob ∉ (sEx.HandleExitRequest 1 {}).1.Clients ∧
    ∀ l ∈ (sEx.HandleExitRequest 1 {}).1.Lobbies, bob ∉ l.players :=
  HandleExitRequest_cleanup sEx 1 {} bob rfl

/-- Claim C9 (amended): every `Send*` method of the client sets the
per-connection sequence counter to its successor modulo 2^16 (the counter
is a Go `uint16`), so each send increments it by exactly one — and the
counter strictly increases — as long as it has not reached 65535, at which
point the next send wraps it to 0. -/
theorem Client_send_sequence_mod (pv pile : Nat) (name id token lname msg q : String)
    (c : Client) :
    ((c.SendVersionRequest pv).1.Sequence = (c.Sequence + 1) % 65536 ∧
     c.SendExitRequest.1.Sequence = (c.Sequence + 1) % 65536 ∧
     (c.SendLoginRequest name id token).1.Sequence = (c.Sequence + 1) % 65536 ∧
     (c.SendCreateLobbyRequest lname).1.Sequence = (c.Sequence + 1) % 65536 ∧
     (c.SendGetCardPile pile).1.Sequence = (c.Sequence + 1) % 65536 ∧
     c.SendPlayerListRequest.1.Sequence = (c.Sequence + 1) % 65536 ∧
     (c.SendGlobalChatRequest msg).1.Sequence = (c.Sequence + 1) % 65536 ∧
     c.SendLobbyListRequest.1.Sequence = (c.Sequence + 1) % 65536 ∧
     (c.SendJoinLobbyRequest q).1.Sequence = (c.Sequence + 1) % 65536) ∧
    (c.Sequence < 65535 → (c.Sequence + 1) % 65536 = c.Sequence + 1) := by
  refine ⟨⟨rfl, rfl, rfl, rfl, rfl, rfl, rfl, rfl, rfl⟩, ?_⟩
  intro h
  exact Nat.mod_eq_of_lt (by omega)

/-- Witness for C9 at a concrete client whose counter is below the wrap
point. -/
theorem Client_send_sequence_mod_witness :
    (cEx.SendVersionRequest 1).1.Sequence = (cEx.Sequence + 1) % 65536 ∧
    (cEx.Sequence + 1) % 65536 = cEx.Sequence + 1 :=
  ⟨(Client_send_sequence_mod 1 0 "a" "b" "t" "l" "m" "q" cEx).1.1,
   (Client_send_sequence_mod 1 0 "a" "b" "t" "l" "m" "q" cEx).2 (by decide)⟩

/-- Counterexample to C9 as stated: a client whose counter sits at 65535
(the largest `uint16` value) sends a version request and the counter wraps
to 0 — it neither becomes the old value plus one nor increases, refuting
unconditional increment-by-one and monotonicity. -/
theorem Client_sequence_wraparound :
    ((Client.mk 0 65535).SendVersionRequest 1).1.Sequence = 0 ∧
    ¬ (Client.mk 0 65535).Sequence <
        ((Client.mk 0 65535).SendVersionRequest 1).1.Sequence ∧
    ((Client.mk 0 65535).SendVersionRequest 1).1.Sequence ≠
      (Client.mk 0 65535).Sequence + 1 :=
  ⟨rfl, by decide, by decide⟩

/-- Claim C10: with the requester resolved as host of its lobby and the
target resolved through the player registry, `HandleLobbyKickRequest`
succeeds and sends `LobbyKickResponse(targetID, true)` to both requester
and target with no hypothesis that the target belongs to the lobby — the
code removes the target from the member set (a no-op for a non-member)
without ever checking membership. -/
theorem HandleLobbyKickRequest_no_membership_check (s : Server) (client : Conn)
    (packet : LobbyKickRequestPacket) (player targetPlayer : Player) (lobby : Lobby)
    (hp : s.FindPlayerByConnection client = .ok player)
    (ht : s.FindPlayerByID packet.Target = .ok targetPlayer)
    (hl : s.FindLobbyByPlayer player = .ok lobby)
    (hhost : lobby.host = player) :
    s.HandleLobbyKickRequest client packet =
      (s.updateLobby (lobby.RemovePlayer targetPlayer),
       [.lobbyKickResponse player targetPlayer.ID true,
        .lobbyKickResponse targetPlayer targetPlayer.ID true], .ok ()) := by
  simp [Server.HandleLobbyKickRequest, hp, ht, hl, hhost]

/-- Witness for C10: host `alice` kicks `carol`, who is registered but not
a member of the fixture lobby, and the request still succeeds with both
kick responses sent. -/
theorem HandleLobbyKickRequest_no_membership_check_witness :
    carol ∉ fooLobby.players ∧
    sEx.HandleLobbyKickRequest 0 { Target := "carol" } =
      (sEx.updateLobby (fooLobby.RemovePlayer carol),
       [.lobbyKickResponse alice carol.ID true,
        .lobbyKickResponse carol carol.ID true], .ok ()) :=
  ⟨by decide,
   HandleLobbyKickRequest_no_membership_check sEx 0 { Target := "carol" } alice carol
     fooLobby rfl rfl rfl rfl⟩

end KFNetwork
